import Mathlib

/-!
Shallow embedding of the request/state pipeline of the lad-platform
front-end: the form-data encoder (`src/lib/formDataUtils.ts`), the request
gateway (`src/lib/apiClient.ts`) and the products entity store
(`useProductsStore`).

Conventions of the embedding:
* JavaScript values reachable by the encoder are modelled by the inductive
  `JVal`; `null` and `undefined` are both folded into `JVal.null` (at object
  level the source skips both identically).
* JavaScript numbers appearing in this pipeline are integers in every code
  path a claim touches; they are modelled as `Int` and the `Number(x)`
  coercion on an already-numeric value is the identity.
* JavaScript truthiness is modelled explicitly wherever the source relies on
  it (`x || y`, `if (obj[key])`, `config.maxSize && ...`).
* Fallible code (the encoder throwing `Error`) returns `Except String`.
-/

namespace Lad

/-- A binary file handle (the browser `File`): its `name`, MIME `ftype`
(the source's `file.type`) and `size` in bytes. -/
structure FileV where
  name : String
  ftype : String
  size : Nat
deriving Repr, DecidableEq

/-- `FileUploadConfig` from `formDataUtils.ts`: optional `maxSize` (bytes),
`allowedTypes`, `maxFiles`. -/
structure FileUploadConfig where
  maxSize : Option Nat := none
  allowedTypes : Option (List String) := none
  maxFiles : Option Nat := none
deriving Repr, DecidableEq

/-- `FormDataOptions` from `formDataUtils.ts`, with the destructuring
defaults of `toFormData` baked in as field defaults. -/
structure FormDataOptions where
  arrayBrackets : Bool := true
  nestedObjects : Bool := true
  fileConfig : Option FileUploadConfig := none
  fileFields : List (String × FileUploadConfig) := []
  validateFiles : Bool := false
  excludeEmptyFiles : Bool := false
deriving Repr, DecidableEq

/-- JS `s.includes(sub)` for a non-empty pattern: `sub` occurs somewhere in
`s`. -/
def jsIncludes (s sub : String) : Bool :=
  (s.splitOn sub).length > 1

/-- JS `s.replace(pat, repl)`: replaces only the first occurrence of `pat`
(the source calls it as `type.replace("*", "")`). -/
def replaceFirst (s pat repl : String) : String :=
  match s.splitOn pat with
  | [] => s
  | [_] => s
  | x :: rest => x ++ repl ++ String.intercalate pat rest

/-- The `(config.maxSize / (1024 * 1024)).toFixed(1)` display string of
`validateFile`. The JS computation formats a float with one decimal; it is
modelled by exact rational rounding (half up) to a tenth of a mebibyte,
which agrees on every byte count used in this code base. -/
def toFixed1MB (maxSize : Nat) : String :=
  let tenths := (maxSize * 10 + 524288) / 1048576
  toString (tenths / 10) ++ "." ++ toString (tenths % 10)

/-- The size-violation message pushed by `validateFile`. -/
def sizeLimitMsg (maxSize : Nat) : String :=
  "File size exceeds " ++ toFixed1MB maxSize ++ "MB limit"

/-- The `.${file.name.split(".").pop()?.toLowerCase()}` extension string of
`validateFile`. -/
def fileExtensionOf (fname : String) : String :=
  "." ++ ((fname.splitOn ".").getLastD "").toLower

/-- One entry of `config.allowedTypes` matches the file: equal to the
dot-extension, equal to the lower-cased MIME type, or a wildcard MIME
pattern whose prefix (first `*` removed) starts the MIME type. -/
def allowedTypeMatches (ext mime : String) (t : String) : Bool :=
  t.toLower == ext || t.toLower == mime ||
    (jsIncludes t "*" && mime.startsWith (replaceFirst t "*" ""))

/-- `validateFile(file, config)` from `formDataUtils.ts`: returns the list
of violated rules (size first, then type). `config.maxSize && ...` and
`config.allowedTypes && config.allowedTypes.length > 0` are JS-truthy
guards: a missing or zero `maxSize` and a missing or empty `allowedTypes`
disable the corresponding check. -/
def validateFile (file : FileV) (config : Option FileUploadConfig) : List String :=
  match config with
  | none => []
  | some cfg =>
    let sizeErrs :=
      match cfg.maxSize with
      | some m => if m ≠ 0 ∧ file.size > m then [sizeLimitMsg m] else []
      | none => []
    let typeErrs :=
      match cfg.allowedTypes with
      | some ts =>
        if ts ≠ [] then
          let ext := fileExtensionOf file.name
          let mime := file.ftype.toLower
          if ts.any (allowedTypeMatches ext mime) then []
          else ["File type " ++ ext ++ " is not allowed"]
        else []
      | none => []
    sizeErrs ++ typeErrs

/-- `validateFiles(files, config)` from `formDataUtils.ts`: a `maxFiles`
count check (JS-truthy guard on `config.maxFiles`) followed by the per-file
errors, each prefixed with its 1-based position. -/
def validateFiles (files : List FileV) (config : Option FileUploadConfig) : List String :=
  match config with
  | none => []
  | some cfg =>
    let countErrs :=
      match cfg.maxFiles with
      | some mf =>
        if mf ≠ 0 ∧ files.length > mf then
          ["Maximum " ++ toString mf ++ " files allowed"]
        else []
      | none => []
    countErrs ++
      (files.mapIdx (fun i f =>
        (validateFile f (some cfg)).map
          (fun e => "File " ++ toString (i + 1) ++ ": " ++ e))).flatten

/-- The tree of JavaScript values the encoder can receive. `null` models
both `null` and `undefined` (skipped identically at object level);
`date iso` models a `Date` whose `toISOString()` is `iso`; `files` models a
`FileList`. -/
inductive JVal where
  | null
  | str (s : String)
  | num (n : Int)
  | bool (b : Bool)
  | date (iso : String)
  | file (f : FileV)
  | files (fs : List FileV)
  | arr (xs : List JVal)
  | obj (fields : List (String × JVal))
deriving Repr

/-- One multipart entry value: a string or a file. -/
inductive FormVal where
  | str (s : String)
  | file (f : FileV)
deriving Repr, DecidableEq

-- Size measures used as termination measures for the encoder recursion.
mutual

def sizeV : JVal → Nat
  | .null => 1
  | .str _ => 1
  | .num _ => 1
  | .bool _ => 1
  | .date _ => 1
  | .file _ => 1
  | .files fs => 1 + 2 * fs.length
  | .arr xs => 1 + sizeVL xs
  | .obj fields => 1 + sizeFL fields

def sizeVL : List JVal → Nat
  | [] => 0
  | x :: rest => 1 + sizeV x + sizeVL rest

def sizeFL : List (String × JVal) → Nat
  | [] => 0
  | kv :: rest => 1 + sizeV kv.2 + sizeFL rest

end

-- The string coercion `String(item)` applied to array items by the
-- encoder. `String(Date)` is an implementation-defined locale string in
-- JS; it is abstracted here by the ISO value (no claim depends on it).
-- Arrays stringify as their elements joined by commas with `null`
-- rendered empty, objects as `"[object Object]"`.
mutual

def jsStringOf : JVal → String
  | .null => "null"
  | .str s => s
  | .num n => toString n
  | .bool b => if b then "true" else "false"
  | .date iso => iso
  | .file _ => "[object File]"
  | .files _ => "[object FileList]"
  | .obj _ => "[object Object]"
  | .arr xs => jsArrJoin xs
termination_by v => sizeV v
decreasing_by
  all_goals simp [sizeV, sizeVL]

def jsArrJoin : List JVal → String
  | [] => ""
  | x :: rest =>
    let s := match x with
      | .null => ""
      | v => jsStringOf v
    if rest.isEmpty then s else s ++ "," ++ jsArrJoin rest
termination_by l => sizeVL l
decreasing_by
  all_goals simp [sizeV, sizeVL]
  all_goals omega

end

/-- Key construction of `toFormData`: with a parent the child key is
`parent[key]` when `arrayBrackets` is set, else `parent.key`; at the root
the key is untouched. -/
def mkFormKey (arrayBrackets : Bool) (parent : Option String) (key : String) : String :=
  match parent with
  | none => key
  | some p => if arrayBrackets then p ++ "[" ++ key ++ "]" else p ++ "." ++ key

/-- `fileFields?.[key] || fileConfig`: a per-field config (an object, hence
truthy when present) wins over the general one. -/
def currentFileConfig (opts : FormDataOptions) (key : String) : Option FileUploadConfig :=
  match (opts.fileFields.find? (fun p => p.1 == key)).map Prod.snd with
  | some c => some c
  | none => opts.fileConfig

/-- The index-keyed field list produced by `for..in` over an array or a
`FileList` when the source recurses into it as a plain object. -/
def enumJVals (ys : List JVal) : List (String × JVal) :=
  ys.mapIdx (fun i y => (toString i, y))

theorem sizeFL_mapIdx (g : Nat → JVal → String) (ys : List JVal) :
    sizeFL (ys.mapIdx (fun i y => (g i y, y))) = sizeVL ys := by
  induction ys generalizing g with
  | nil => simp [sizeFL, sizeVL]
  | cons y rest ih =>
    simp only [List.mapIdx_cons, sizeFL, sizeVL]
    rw [ih (fun i y => g (i + 1) y)]

theorem sizeFL_enumJVals (ys : List JVal) : sizeFL (enumJVals ys) = sizeVL ys :=
  sizeFL_mapIdx (fun i _ => toString i) ys

theorem sizeVL_map_file (fs : List FileV) : sizeVL (fs.map JVal.file) = 2 * fs.length := by
  induction fs with
  | nil => simp [sizeVL]
  | cons f rest ih =>
    simp [sizeVL, sizeV, ih]
    omega

-- The recursive body of `toFormData` from `formDataUtils.ts`, split in
-- the shape of the source:
-- * `encodeFields` is the `for (const key in obj)` loop over an object's
--   own fields, given the current `parentKey`;
-- * `encodeEntry` is one loop iteration, dispatching on the value exactly
--   in the source's branch order (null/undefined skipped, `File`,
--   `FileList`, `Array.isArray`, nested object, `Date`, boolean,
--   `String(value)`);
-- * `encodeArrayItems` is the `value.forEach((item, index) => ...)` loop
--   of the array branch.
-- A thrown `Error(...)` is an `Except.error` carrying the same message.
mutual

def encodeFields (opts : FormDataOptions) (parent : Option String) :
    List (String × JVal) → Except String (List (String × FormVal))
  | [] => Except.ok []
  | (key, value) :: rest =>
    match encodeEntry opts parent key value with
    | Except.error e => Except.error e
    | Except.ok head =>
      match encodeFields opts parent rest with
      | Except.error e => Except.error e
      | Except.ok tail => Except.ok (head ++ tail)
termination_by l => sizeFL l
decreasing_by
  all_goals simp [sizeV, sizeVL, sizeFL]
  all_goals omega

def encodeEntry (opts : FormDataOptions) (parent : Option String)
    (key : String) (value : JVal) : Except String (List (String × FormVal)) :=
  let formKey := mkFormKey opts.arrayBrackets parent key
  match value with
  | .null => Except.ok []
  | .file f =>
    let cfg := currentFileConfig opts key
    if opts.validateFiles ∧ cfg.isSome then
      let errs := validateFile f cfg
      if errs ≠ [] then
        Except.error ("File validation failed for " ++ key ++ ": " ++
          String.intercalate ", " errs)
      else Except.ok [(formKey, FormVal.file f)]
    else Except.ok [(formKey, FormVal.file f)]
  | .files fs =>
    if opts.excludeEmptyFiles ∧ fs.isEmpty then Except.ok []
    else
      let cfg := currentFileConfig opts key
      let entries := fs.mapIdx (fun i f =>
        (mkFormKey opts.arrayBrackets (some formKey) (toString i), FormVal.file f))
      if opts.validateFiles ∧ cfg.isSome then
        let errs := validateFiles fs cfg
        if errs ≠ [] then
          Except.error ("File validation failed for " ++ key ++ ": " ++
            String.intercalate ", " errs)
        else Except.ok entries
      else Except.ok entries
  | .arr xs =>
    if opts.excludeEmptyFiles ∧ xs.isEmpty ∧ jsIncludes key "file" then Except.ok []
    else encodeArrayItems opts key formKey 0 xs
  | .obj fields =>
    if opts.nestedObjects then encodeFields opts (some formKey) fields
    else Except.ok [(formKey, FormVal.str "[object Object]")]
  | .date iso => Except.ok [(formKey, FormVal.str iso)]
  | .bool b => Except.ok [(formKey, FormVal.str (if b then "1" else "0"))]
  | .str s => Except.ok [(formKey, FormVal.str s)]
  | .num n => Except.ok [(formKey, FormVal.str (toString n))]
termination_by sizeV value
decreasing_by
  all_goals simp [sizeV, sizeVL, sizeFL]

def encodeArrayItems (opts : FormDataOptions) (key formKey : String) (i : Nat) :
    List JVal → Except String (List (String × FormVal))
  | [] => Except.ok []
  | item :: rest =>
    let arrayKey := mkFormKey opts.arrayBrackets (some formKey) (toString i)
    let head : Except String (List (String × FormVal)) :=
      match item with
      | .file f =>
        let cfg := currentFileConfig opts key
        if opts.validateFiles ∧ cfg.isSome then
          let errs := validateFile f cfg
          if errs ≠ [] then
            Except.error ("File validation failed for " ++ key ++ "[" ++
              toString i ++ "]: " ++ String.intercalate ", " errs)
          else Except.ok [(arrayKey, FormVal.file f)]
        else Except.ok [(arrayKey, FormVal.file f)]
      | .obj fields =>
        if opts.nestedObjects then encodeFields opts (some arrayKey) fields
        else Except.ok [(arrayKey, FormVal.str "[object Object]")]
      | .arr ys =>
        if opts.nestedObjects then encodeFields opts (some arrayKey) (enumJVals ys)
        else Except.ok [(arrayKey, FormVal.str (jsStringOf (JVal.arr ys)))]
      | .files fs =>
        if opts.nestedObjects then
          encodeFields opts (some arrayKey) (enumJVals (fs.map JVal.file))
        else Except.ok [(arrayKey, FormVal.str "[object FileList]")]
      | .date iso =>
        if opts.nestedObjects then Except.ok []
        else Except.ok [(arrayKey, FormVal.str (jsStringOf (JVal.date iso)))]
      | .null => Except.ok [(arrayKey, FormVal.str "null")]
      | .str s => Except.ok [(arrayKey, FormVal.str s)]
      | .num n => Except.ok [(arrayKey, FormVal.str (toString n))]
      | .bool b => Except.ok [(arrayKey, FormVal.str (if b then "true" else "false"))]
    match head with
    | Except.error e => Except.error e
    | Except.ok hd =>
      match encodeArrayItems opts key formKey (i + 1) rest with
      | Except.error e => Except.error e
      | Except.ok tl => Except.ok (hd ++ tl)
termination_by l => sizeVL l
decreasing_by
  all_goals simp [sizeV, sizeVL, sizeFL, sizeFL_enumJVals, sizeVL_map_file]
  all_goals omega

end

/-- `toFormData(obj, options)` at the top level: encode the fields of the
payload object with no parent key. -/
def toFormData (obj : List (String × JVal)) (options : FormDataOptions) :
    Except String (List (String × FormVal)) :=
  encodeFields options none obj

/-- JS truthiness of a value stored in the decoded object (`if (obj[key])`
in `formDataToObject`): empty strings, zero and `null` are falsy; files,
dates, arrays and objects (even empty) are truthy. -/
def jsTruthy : JVal → Bool
  | .null => false
  | .str s => !(s == "")
  | .num n => !(n == 0)
  | .bool b => b
  | .date _ => true
  | .file _ => true
  | .files _ => true
  | .arr _ => true
  | .obj _ => true

/-- Embed one `FormData` entry value into the decoded object. -/
def jvalOfFormVal : FormVal → JVal
  | .str s => JVal.str s
  | .file f => JVal.file f

/-- `obj[key]` lookup on the decoded object under construction. -/
def lookupJ (obj : List (String × JVal)) (key : String) : Option JVal :=
  (obj.find? (fun p => p.1 == key)).map Prod.snd

/-- `obj[key] = v`: overwrite the value at the first occurrence of `key`,
keeping its position (appends if absent). -/
def setKey : List (String × JVal) → String → JVal → List (String × JVal)
  | [], k, v => [(k, v)]
  | (k0, v0) :: rest, k, v =>
    if k0 == k then (k0, v) :: rest else (k0, v0) :: setKey rest k v

/-- One iteration of the `formDataToObject` loop: if the key already holds
a truthy value, collapse into (or extend) an array; a falsy existing value
(only possible for the empty string) is overwritten; otherwise append the
key. -/
def addEntry (obj : List (String × JVal)) (key : String) (v : FormVal) :
    List (String × JVal) :=
  match lookupJ obj key with
  | some existing =>
    if jsTruthy existing then
      match existing with
      | .arr xs => setKey obj key (JVal.arr (xs ++ [jvalOfFormVal v]))
      | old => setKey obj key (JVal.arr [old, jvalOfFormVal v])
    else setKey obj key (jvalOfFormVal v)
  | none => obj ++ [(key, jvalOfFormVal v)]

/-- `formDataToObject(formData)` from `formDataUtils.ts`: fold the entries
into an object, collapsing duplicate keys into arrays. -/
def formDataToObject (entries : List (String × FormVal)) : List (String × JVal) :=
  entries.foldl (fun acc e => addEntry acc e.1 e.2) []

-- `containsFiles(obj)` from `formDataUtils.ts`. `fieldsHaveFiles` and
-- `valuesHaveFiles` are the `for (const key in obj)` loop over an object
-- respectively an array (or `FileList`); `valueHasFiles` is the per-value
-- check chain (`File`, `FileList`, `Blob`, array containing a `File` or
-- `Blob`, recursive object check). A `File` models `Blob` as well; a
-- `Date` has no own enumerable properties, so recursing into it finds
-- nothing.
mutual

def fieldsHaveFiles : List (String × JVal) → Bool
  | [] => false
  | kv :: rest => valueHasFiles kv.2 || fieldsHaveFiles rest
termination_by l => sizeFL l
decreasing_by
  all_goals simp [sizeV, sizeVL, sizeFL]
  all_goals omega

def valuesHaveFiles : List JVal → Bool
  | [] => false
  | v :: rest => valueHasFiles v || valuesHaveFiles rest
termination_by l => sizeVL l
decreasing_by
  all_goals simp [sizeV, sizeVL, sizeFL]
  all_goals omega

def valueHasFiles : JVal → Bool
  | .file _ => true
  | .files _ => true
  | .arr xs =>
    xs.any (fun item => match item with | .file _ => true | _ => false) ||
      valuesHaveFiles xs
  | .obj fields => fieldsHaveFiles fields
  | _ => false
termination_by v => sizeV v
decreasing_by
  all_goals simp [sizeV, sizeVL, sizeFL]

end

/-- `containsFiles(obj)` applied to the payload itself: only an object, an
array or a non-empty `FileList` can contain files; recursing into anything
else (including a `File`, which has no own enumerable properties) finds
none. -/
def containsFiles : JVal → Bool
  | .obj fields => fieldsHaveFiles fields
  | .arr xs => valuesHaveFiles xs
  | .files fs => !fs.isEmpty
  | _ => false

/-!  The request gateway (`src/lib/apiClient.ts`).  -/

/-- `PaginationMeta` from `apiClient.ts`. `from`/`to` are Lean keywords and
are rendered `fromIdx`/`toIdx`. -/
structure PaginationMeta where
  current_page : Int
  last_page : Int
  per_page : Int
  total : Int
  fromIdx : Option Int := none
  toIdx : Option Int := none
deriving Repr, DecidableEq

/-- `ApiResponse<T>` from `apiClient.ts`: the uniform envelope. -/
structure ApiResp (α : Type) where
  success : Bool
  data : Option α := none
  response : Option α := none
  message : Option String := none
  meta : Option PaginationMeta := none
deriving Repr, DecidableEq

/-- `o` filtered through JS truthiness for strings: `some s` with `s`
non-empty, else `none` (an absent or empty message is falsy). -/
def truthyStr (o : Option String) : Option String :=
  match o with
  | some s => if s == "" then none else some s
  | none => none

/-- The catch-branch message of `executeRequest`:
`error?.response?.data?.message || error?.message || "Something went wrong"`. -/
def errMessageChain (respMessage errMessage : Option String) : String :=
  match truthyStr respMessage with
  | some m => m
  | none =>
    match truthyStr errMessage with
    | some m => m
    | none => "Something went wrong"

/-- The outcome of the transport call `api.request(...)`: either a response
whose body is envelope-shaped, or a thrown error carrying the optional
server body message (`error.response?.data?.message`) and the error's own
optional `message`. -/
inductive TransportResult (α : Type) where
  | ok (body : ApiResp α)
  | err (respMessage : Option String) (errMessage : Option String)
deriving Repr, DecidableEq

/-- `toFormData` applied to whatever payload value reaches the encoder.
Enumerating a payload that is itself an array or `FileList` mirrors the
source's `for..in` over it; a non-object payload has nothing to enumerate
(and can never contain files anyway). -/
def toFormDataAny (v : JVal) (opts : FormDataOptions) :
    Except String (List (String × FormVal)) :=
  match v with
  | .obj fields => encodeFields opts none fields
  | .arr ys => encodeFields opts none (enumJVals ys)
  | .files fs => encodeFields opts none (enumJVals (fs.map JVal.file))
  | _ => Except.ok []

/-- `executeRequest` from `apiClient.ts`. The whole body is a `try/catch`
whose catch builds a `success:false` envelope, so the function is total
(never throws or rejects):
* if the payload contains files it is first routed through `toFormData`;
  a validation `Error` thrown there is caught, with no server response
  attached, so the envelope message falls to the error's own message;
* a transport error is caught and normalised through `errMessageChain`;
* a transport response is wrapped verbatim into the envelope fields. -/
def executeRequest {α : Type} (payload : Option JVal) (opts : FormDataOptions)
    (transport : TransportResult α) : ApiResp α :=
  let onTransport : TransportResult α → ApiResp α := fun t =>
    match t with
    | .ok body =>
      { success := body.success, data := body.data, response := body.response,
        message := body.message, meta := body.meta }
    | .err rm em => { success := false, message := some (errMessageChain rm em) }
  match payload with
  | some d =>
    if containsFiles d then
      match toFormDataAny d opts with
      | Except.error m =>
        { success := false, message := some (errMessageChain none (some m)) }
      | Except.ok _ => onTransport transport
    else onTransport transport
  | none => onTransport transport

/-- The module-wide `pendingRequests` map of `apiClient.ts` together with a
transport-call counter and a fresh-promise supply. Each created request
promise is identified by a `Nat`; two callers holding the same promise id
await the same settled value. -/
structure GatewayState where
  pending : List (String × Nat) := []
  nextPromiseId : Nat := 0
  transportCalls : Nat := 0
deriving Repr, DecidableEq

/-- The dedup key: `` `${method}:${url}` `` for `GET`, none otherwise. -/
def requestKey (method url : String) : Option String :=
  if method == "get" then some (method ++ ":" ++ url) else none

/-- `pendingRequests.get(key)`. -/
def lookupPending (s : GatewayState) (k : String) : Option Nat :=
  (s.pending.find? (fun p => p.1 == k)).map Prod.snd

/-- `request(method, url, ...)` from `apiClient.ts`, reduced to its
de-duplication behaviour: a `GET` whose key is already pending returns the
cached promise without a transport call; otherwise `executeRequest` is
dispatched (one transport call, a fresh promise id) and, for `GET` only,
the promise is recorded under its key. -/
def request (method url : String) (s : GatewayState) : Nat × GatewayState :=
  match requestKey method url with
  | some k =>
    match lookupPending s k with
    | some pid => (pid, s)
    | none =>
      (s.nextPromiseId,
        { pending := s.pending ++ [(k, s.nextPromiseId)],
          nextPromiseId := s.nextPromiseId + 1,
          transportCalls := s.transportCalls + 1 })
  | none =>
    (s.nextPromiseId,
      { pending := s.pending,
        nextPromiseId := s.nextPromiseId + 1,
        transportCalls := s.transportCalls + 1 })

/-- The `requestPromise.finally(() => pendingRequests.delete(requestKey))`
cleanup, which the source registers only when a key was stored (`GET`): when
the promise settles — `succeeded` is ignored, success and failure alike —
the key's entry is removed. Non-`GET` requests have no entry to remove. -/
def settle (method url : String) (_succeeded : Bool) (s : GatewayState) : GatewayState :=
  match requestKey method url with
  | some k => { s with pending := s.pending.eraseP (fun p => p.1 == k) }
  | none => s

/-!  The products entity store (`useProductsStore`).  -/

/-- `ProductMedia` (the fields the store reads): `id`, the discriminating
`type` (`"image"` / `"document"`, optional) and `created_at`. -/
structure ProductMedia where
  id : Int
  type : Option String := none
  created_at : String := ""
deriving Repr, DecidableEq

/-- `Product` (the fields the store constructs or reads). Optional TS
fields are `Option`; the optional `images`/`documents` lists are modelled
as plain lists with `[]` for absent, matching the store's
`currentProduct.images || []` reads. -/
structure Product where
  id : Int
  name : String := ""
  name_ar : Option String := none
  name_en : Option String := none
  description : Option String := none
  description_ar : Option String := none
  description_en : Option String := none
  main_category_id : Option Int := none
  sub_category_id : Option Int := none
  micro_category_id : Option Int := none
  price : Int := 0
  discount_type : String := "none"
  discount_value : Option Int := none
  final_price : Option Int := none
  label : String := "none"
  is_active : Bool := true
  display_order : Option Int := none
  images : List ProductMedia := []
  documents : List ProductMedia := []
  created_at : String := ""
  updated_at : String := ""
  is_optimistic : Option Bool := none
deriving Repr, DecidableEq

/-- `ProductFormData` (file fields omitted: the store never reads them). -/
structure ProductFormData where
  name_ar : String
  name_en : String
  description_ar : Option String := none
  description_en : Option String := none
  main_category_id : Int
  sub_category_id : Option Int := none
  micro_category_id : Option Int := none
  price : Int
  discount_type : String := "none"
  discount_value : Option Int := none
  label : String := "none"
  is_active : Bool := true
  display_order : Option Int := none
deriving Repr, DecidableEq

/-- `ProductFilters`. -/
structure ProductFilters where
  search : String := ""
  category_id : Option Int := none
  sub_category_id : Option Int := none
  micro_category_id : Option Int := none
  label : Option String := none
  is_active : Option Bool := none
  page : Int := 1
  per_page : Int := 12
deriving Repr, DecidableEq

/-- The store state (`ProductsState` minus the action closures). -/
structure ProductsState where
  products : List Product := []
  selectedProduct : Option Product := none
  filters : ProductFilters := {}
  isLoading : Bool := false
  isCreating : Bool := false
  isUpdating : Bool := false
  isDeleting : Bool := false
  error : Option String := none
  currentPage : Int := 1
  totalPages : Int := 0
  totalProducts : Int := 0
deriving Repr, DecidableEq

/-- How a store action's `await productApi...` resolves: with an envelope
(the gateway itself never rejects), or with a thrown runtime error, which
the store's `catch` handles. -/
inductive GatewayOutcome (α : Type) where
  | env (e : ApiResp α)
  | thrown
deriving Repr, DecidableEq

/-- `response.data || response.response`: for the store's payload types
(arrays and objects) any present value is truthy, so the chain is
first-present-wins. -/
def dataOrResponse {α : Type} (e : ApiResp α) : Option α :=
  match e.data with
  | some v => some v
  | none => e.response

/-- The success-branch guard shared by the store actions,
`response.success && (response.data || response.response)`, returning the
payload it selects. -/
def successPayload {α : Type} (e : ApiResp α) : Option α :=
  if e.success then dataOrResponse e else none

/-- `m || fb` on an optional string with JS truthiness (an empty string
falls through to the fallback). -/
def jsOrDefault (m : Option String) (fb : String) : String :=
  match m with
  | some s => if s == "" then fb else s
  | none => fb

/-- `a || b` on two optional strings (`data.description_ar || data.description_en`):
a truthy left wins, otherwise the right is returned verbatim. -/
def jsOrOptStr (a b : Option String) : Option String :=
  match truthyStr a with
  | some s => some s
  | none => b

/-- `a || b` where `a` is an optional number (`Number(undefined)` is `NaN`,
falsy; `0` is falsy too). -/
def jsOrOptInt (a : Option Int) (b : Option Int) : Option Int :=
  match a with
  | some v => if v == 0 then b else some v
  | none => b

/-- `Number(a) || fb` collapsing to a plain number. -/
def jsNumOr (a : Option Int) (fb : Int) : Int :=
  match a with
  | some v => if v == 0 then fb else v
  | none => fb

/-- `meta?.total || fb` (and friends): a missing meta or a zero field falls
back. -/
def metaFieldOr (m : Option PaginationMeta) (f : PaginationMeta → Int) (fb : Int) : Int :=
  match m with
  | some mm => if f mm == 0 then fb else f mm
  | none => fb

/-- `get().selectedProduct?.id === id` (the store also wraps the id in
`Number(...)`, the identity here). -/
def selectedIdIs (sel : Option Product) (id : Int) : Bool :=
  match sel with
  | some p => p.id == id
  | none => false

/-- `fetchProducts`: the synchronous prefix before the `await`. -/
def fetchProductsPre (s : ProductsState) : ProductsState :=
  { s with isLoading := true, error := none }

/-- `fetchProducts`: reconciliation after the gateway call resolves. -/
def fetchProductsPost (o : GatewayOutcome (List Product)) (s : ProductsState) :
    ProductsState :=
  match o with
  | .env r =>
    match successPayload r with
    | some products =>
      { s with products := products,
               totalProducts := metaFieldOr r.meta (fun m => m.total) products.length,
               totalPages := metaFieldOr r.meta (fun m => m.last_page) 1,
               currentPage := metaFieldOr r.meta (fun m => m.current_page) 1,
               isLoading := false }
    | none =>
      { s with error := some (jsOrDefault r.message "فشل في تحميل المنتجات"),
               isLoading := false }
  | .thrown =>
    { s with error := some "حدث خطأ أثناء تحميل المنتجات", isLoading := false }

/-- `fetchProducts` as one sequential call. -/
def fetchProducts (o : GatewayOutcome (List Product)) (s : ProductsState) :
    ProductsState :=
  fetchProductsPost o (fetchProductsPre s)

/-- `getProduct`: the synchronous prefix before the `await`. -/
def getProductPre (s : ProductsState) : ProductsState :=
  { s with isLoading := true, error := none }

/-- `getProduct`: reconciliation after the gateway call resolves. -/
def getProductPost (o : GatewayOutcome Product) (s : ProductsState) : ProductsState :=
  match o with
  | .env r =>
    match successPayload r with
    | some product =>
      { s with selectedProduct := some product, isLoading := false }
    | none =>
      { s with error := some (jsOrDefault r.message "فشل في تحميل بيانات المنتج"),
               isLoading := false }
  | .thrown =>
    { s with error := some "حدث خطأ أثناء تحميل المنتج", isLoading := false }

/-- `getProduct` as one sequential call. -/
def getProduct (o : GatewayOutcome Product) (s : ProductsState) : ProductsState :=
  getProductPost o (getProductPre s)

/-- The optimistic placeholder of `createProduct`: temporary id
`Date.now()` (`now`), `is_optimistic: true`, fields derived from the form
data with the source's `||` fallbacks. -/
def mkTempProduct (now : Int) (nowIso : String) (d : ProductFormData) : Product :=
  { id := now,
    name := if d.name_ar == "" then d.name_en else d.name_ar,
    name_ar := some d.name_ar,
    name_en := some d.name_en,
    description := jsOrOptStr d.description_ar d.description_en,
    description_ar := some (jsOrDefault d.description_ar ""),
    description_en := some (jsOrDefault d.description_en ""),
    main_category_id := some d.main_category_id,
    sub_category_id := d.sub_category_id,
    micro_category_id := d.micro_category_id,
    price := d.price,
    discount_type := d.discount_type,
    discount_value := some (jsNumOr d.discount_value 0),
    final_price := some d.price,
    label := d.label,
    is_active := d.is_active,
    display_order := d.display_order,
    images := [],
    documents := [],
    created_at := nowIso,
    updated_at := nowIso,
    is_optimistic := some true }

/-- `createProduct`: prepend the optimistic placeholder, call the gateway;
on success replace it by prepending the server entity to the pre-mutation
snapshot; on a failure envelope or a thrown error restore the snapshot,
decrement the count and set `error`. Returns the created entity or none. -/
def createProduct (now : Int) (nowIso : String) (d : ProductFormData)
    (o : GatewayOutcome Product) (s : ProductsState) : ProductsState × Option Product :=
  let s0 := { s with isCreating := true, error := none }
  let tempProduct := mkTempProduct now nowIso d
  let currentProducts := s0.products
  let s1 := { s0 with products := tempProduct :: currentProducts,
                      totalProducts := s0.totalProducts + 1 }
  match o with
  | .env r =>
    match successPayload r with
    | some createdProduct =>
      ({ s1 with products := createdProduct :: currentProducts, isCreating := false },
        some createdProduct)
    | none =>
      ({ s1 with products := currentProducts,
                 totalProducts := s1.totalProducts - 1,
                 error := some (jsOrDefault r.message "فشل في إنشاء المنتج"),
                 isCreating := false }, none)
  | .thrown =>
    ({ s1 with products := currentProducts,
               totalProducts := s1.totalProducts - 1,
               error := some "حدث خطأ أثناء إنشاء المنتج",
               isCreating := false }, none)

/-- `findIndex` returning the index together with the element found. -/
def findWithIdx (l : List Product) (id : Int) : Option (Nat × Product) :=
  match l with
  | [] => none
  | p :: rest =>
    if p.id == id then some (0, p)
    else (findWithIdx rest id).map (fun x => (x.1 + 1, x.2))

/-- The locally merged product of `updateProduct`: new fields overlay the
old entity with the source's `||` fallbacks, `is_optimistic: true`. -/
def mergeProduct (nowIso : String) (old : Product) (d : ProductFormData) : Product :=
  { old with
    name_ar := some d.name_ar,
    name_en := some d.name_en,
    description_ar := jsOrOptStr d.description_ar old.description_ar,
    description_en := jsOrOptStr d.description_en old.description_en,
    main_category_id := some d.main_category_id,
    sub_category_id := jsOrOptInt d.sub_category_id old.sub_category_id,
    micro_category_id := jsOrOptInt d.micro_category_id old.micro_category_id,
    price := d.price,
    discount_type := d.discount_type,
    discount_value := jsOrOptInt d.discount_value old.discount_value,
    final_price := some d.price,
    label := d.label,
    is_active := d.is_active,
    display_order := jsOrOptInt d.display_order old.display_order,
    updated_at := nowIso,
    is_optimistic := some true }

/-- `updateProduct`: fail locally when the id is absent (no gateway call);
otherwise apply the merged entity in place, call the gateway, and on
success write the server entity into the snapshot (updating `selected` when
it matches) or on failure restore the snapshot and set `error`. -/
def updateProduct (nowIso : String) (id : Int) (d : ProductFormData)
    (o : GatewayOutcome Product) (s : ProductsState) : ProductsState × Option Product :=
  let s0 := { s with isUpdating := true, error := none }
  let currentProducts := s0.products
  match findWithIdx currentProducts id with
  | none =>
    ({ s0 with error := some "المنتج غير موجود", isUpdating := false }, none)
  | some found =>
    let productIndex := found.1
    let updatedProduct := mergeProduct nowIso found.2 d
    let s1 := { s0 with products := currentProducts.set productIndex updatedProduct }
    match o with
    | .env r =>
      match successPayload r with
      | some serverProduct =>
        let finalProducts := currentProducts.set productIndex serverProduct
        ({ s1 with products := finalProducts,
                   selectedProduct :=
                     if selectedIdIs s1.selectedProduct id then some serverProduct
                     else s1.selectedProduct,
                   isUpdating := false }, some serverProduct)
      | none =>
        ({ s1 with products := currentProducts,
                   error := some (jsOrDefault r.message "فشل في تحديث المنتج"),
                   isUpdating := false }, none)
    | .thrown =>
      ({ s1 with products := currentProducts,
                 error := some "حدث خطأ أثناء تحديث المنتج",
                 isUpdating := false }, none)

/-- `deleteProduct`: the synchronous prefix before the `await`. No product
is removed here — deletion is not optimistic. -/
def deleteProductPre (s : ProductsState) : ProductsState :=
  { s with isDeleting := true, error := none }

/-- `deleteProduct`: reconciliation after the gateway call resolves. Only a
confirmed `success:true` filters the entity out, decrements the count and
clears a matching `selected`; any failure leaves `products` untouched and
sets `error`. -/
def deleteProductPost (id : Int) (o : GatewayOutcome Unit) (s : ProductsState) :
    ProductsState × Bool :=
  match o with
  | .env r =>
    if r.success then
      ({ s with products := s.products.filter (fun p => !(p.id == id)),
                totalProducts := s.totalProducts - 1,
                selectedProduct :=
                  if selectedIdIs s.selectedProduct id then none
                  else s.selectedProduct,
                isDeleting := false }, true)
    else
      ({ s with error := some (jsOrDefault r.message "فشل في حذف المنتج"),
                isDeleting := false }, false)
  | .thrown =>
    ({ s with error := some "حدث خطأ أثناء حذف المنتج", isDeleting := false }, false)

/-- `deleteProduct` as one sequential call. -/
def deleteProduct (id : Int) (o : GatewayOutcome Unit) (s : ProductsState) :
    ProductsState × Bool :=
  deleteProductPost id o (deleteProductPre s)

/-- `uploadProductFiles`: on success append the returned media records into
the matching `selected` product's media lists (images then documents, in
returned order); on any failure return `none` with the state untouched —
the action sets no flags and no `error`. -/
def uploadProductFiles (id : Int) (o : GatewayOutcome (List ProductMedia))
    (s : ProductsState) : ProductsState × Option (List ProductMedia) :=
  match o with
  | .env r =>
    match successPayload r with
    | some uploadedFiles =>
      match s.selectedProduct with
      | some currentProduct =>
        if currentProduct.id == id then
          let updatedImages := currentProduct.images ++
            uploadedFiles.filter (fun f => f.type == some "image")
          let updatedDocuments := currentProduct.documents ++
            uploadedFiles.filter (fun f => f.type == some "document")
          let newSelected : Product :=
            { currentProduct with images := updatedImages,
                                  documents := updatedDocuments }
          ({ s with selectedProduct := some newSelected }, some uploadedFiles)
        else (s, some uploadedFiles)
      | none => (s, some uploadedFiles)
    | none => (s, none)
  | .thrown => (s, none)

/-- `deleteProductMedia`: on success filter the media id out of the
matching `selected` product's media lists; on any failure return `false`
with the state untouched — the action sets no flags and no `error`. -/
def deleteProductMedia (productId mediaId : Int) (o : GatewayOutcome Unit)
    (s : ProductsState) : ProductsState × Bool :=
  match o with
  | .env r =>
    if r.success then
      match s.selectedProduct with
      | some currentProduct =>
        if currentProduct.id == productId then
          let newSelected : Product :=
            { currentProduct with
              images := currentProduct.images.filter (fun m => !(m.id == mediaId)),
              documents := currentProduct.documents.filter (fun m => !(m.id == mediaId)) }
          ({ s with selectedProduct := some newSelected }, true)
        else (s, true)
      | none => (s, true)
    else (s, false)
  | .thrown => (s, false)

/-!  Helper lemmas.  -/

theorem jsOrDefault_ne_empty (m : Option String) (fb : String) (h : fb ≠ "") :
    jsOrDefault m fb ≠ "" := by
  match m with
  | none => exact h
  | some s =>
    simp only [jsOrDefault]
    by_cases hs : s == ""
    · simpa [hs] using h
    · simpa [hs] using fun hc => hs (by simp [hc])

theorem find?_key_append {l : List (String × Nat)} {k : String}
    (h : l.find? (fun p => p.1 == k) = none) (v : Nat) :
    (l ++ [(k, v)]).find? (fun p => p.1 == k) = some (k, v) := by
  induction l with
  | nil => simp [List.find?]
  | cons x rest ih =>
    cases hx : (x.1 == k) with
    | true => simp [List.find?, hx] at h
    | false =>
      simp only [List.find?, hx] at h
      simp only [List.cons_append, List.find?, hx]
      exact ih h

theorem eraseP_key_append {l : List (String × Nat)} {k : String}
    (h : l.find? (fun p => p.1 == k) = none) (v : Nat) :
    (l ++ [(k, v)]).eraseP (fun p => p.1 == k) = l := by
  induction l with
  | nil => simp [List.eraseP]
  | cons x rest ih =>
    cases hx : (x.1 == k) with
    | true => simp [List.find?, hx] at h
    | false =>
      simp only [List.find?, hx] at h
      simp only [List.cons_append, List.eraseP, hx, cond_false, List.append_eq]
      rw [ih h]

/-!  Claims.  -/

/-- C2: for two concurrent `GET` requests with the same `method:url` key,
the second issued while the first is pending, exactly one transport call is
made and both callers get the same promise (hence the identical result
value); the pending entry for the key is gone once the call settles,
success and failure alike; non-`GET` methods are never de-duplicated, even
when identical (two calls, two promises). -/
theorem request_get_dedup (u : String) (s : GatewayState)
    (h : lookupPending s ("get:" ++ u) = none) :
    (request "get" u ((request "get" u s).2)).1 = (request "get" u s).1
    ∧ (request "get" u ((request "get" u s).2)).2 = (request "get" u s).2
    ∧ (request "get" u s).2.transportCalls = s.transportCalls + 1
    ∧ (∀ b : Bool,
        lookupPending (settle "get" u b ((request "get" u ((request "get" u s).2)).2))
          ("get:" ++ u) = none)
    ∧ (∀ m u2 : String, ∀ s2 : GatewayState, m ≠ "get" →
        (request m u2 ((request m u2 s2).2)).1 ≠ (request m u2 s2).1
        ∧ (request m u2 ((request m u2 s2).2)).2.transportCalls = s2.transportCalls + 2) := by
  have hfind : s.pending.find? (fun p => p.1 == "get:" ++ u) = none := by
    cases hf : s.pending.find? (fun p => p.1 == "get:" ++ u) with
    | none => rfl
    | some x =>
      exfalso
      simp only [lookupPending, hf, Option.map_some] at h
      exact Option.noConfusion h
  have hfind2 : (s.pending ++ [("get:" ++ u, s.nextPromiseId)]).find?
      (fun p => p.1 == "get:" ++ u) = some ("get:" ++ u, s.nextPromiseId) :=
    find?_key_append hfind s.nextPromiseId
  refine ⟨?_, ?_, ?_, ?_, ?_⟩
  · simp [request, requestKey, lookupPending, hfind, hfind2]
  · simp [request, requestKey, lookupPending, hfind, hfind2]
  · simp [request, requestKey, lookupPending, hfind]
  · intro b
    simp [request, requestKey, lookupPending, hfind, hfind2, settle,
      eraseP_key_append hfind]
  · intro m u2 s2 hm
    have hk2 : requestKey m u2 = none := by simp [requestKey, hm]
    constructor
    · simp [request, hk2]
    · simp [request, hk2]

/-- C2 witness: the de-duplication contract at the empty gateway state and
url `/x`. -/
theorem request_get_dedup_witness :
    lookupPending ({} : GatewayState) ("get:" ++ "/x") = none
    ∧ (request "get" "/x" ((request "get" "/x" ({} : GatewayState)).2)).1
        = (request "get" "/x" ({} : GatewayState)).1 :=
  ⟨by simp [lookupPending],
    (request_get_dedup "/x" {} (by simp [lookupPending])).1⟩

/-- C3: the gateway's `executeRequest` never surfaces a raw exception (it
is a total function into envelopes); every transport failure resolves to a
`success:false` envelope whose message is the server body message if a
truthy one was received, else the error's own message if truthy, else
`"Something went wrong"`; an encoding failure resolves to a `success:false`
envelope carrying the validation error's message through the same chain. -/
theorem executeRequest_failures_resolve {α : Type} (opts : FormDataOptions)
    (rm em : Option String) (d : JVal) (m : String) (t : TransportResult α) :
    (@executeRequest α none opts (TransportResult.err rm em)
      = { success := false, message := some (errMessageChain rm em) })
    ∧ (containsFiles d = true → toFormDataAny d opts = Except.error m →
        executeRequest (some d) opts t
          = { success := false, message := some (errMessageChain none (some m)) })
    ∧ (∀ s : String, rm = some s → s ≠ "" → errMessageChain rm em = s)
    ∧ (truthyStr rm = none → ∀ s : String, em = some s → s ≠ "" →
        errMessageChain rm em = s)
    ∧ (truthyStr rm = none → truthyStr em = none →
        errMessageChain rm em = "Something went wrong") := by
  refine ⟨?_, ?_, ?_, ?_, ?_⟩
  · simp [executeRequest]
  · intro hcf henc
    simp [executeRequest, hcf, henc]
  · intro s hs hne
    subst hs
    simp [errMessageChain, truthyStr, hne]
  · intro hrm s hs hne
    subst hs
    simp only [errMessageChain, hrm]
    simp [truthyStr, hne]
  · intro hrm hem
    simp [errMessageChain, hrm, hem]

/-- C3 witness: a transport error with a server body message resolves to
that message; an oversized file makes the encoder fail and the envelope
carries its validation message. -/
theorem executeRequest_failures_resolve_witness :
    (@executeRequest Unit none {} (TransportResult.err (some "server says no") (some "boom"))
      = { success := false, message := some "server says no" })
    ∧ containsFiles (JVal.obj [("doc", JVal.file { name := "a.png", ftype := "image/png", size := 2 })]) = true
    ∧ toFormDataAny (JVal.obj [("doc", JVal.file { name := "a.png", ftype := "image/png", size := 2 })])
        { validateFiles := true, fileConfig := some { maxSize := some 1 } }
        = Except.error "File validation failed for doc: File size exceeds 0.0MB limit"
    ∧ @executeRequest Unit
        (some (JVal.obj [("doc", JVal.file { name := "a.png", ftype := "image/png", size := 2 })]))
        { validateFiles := true, fileConfig := some { maxSize := some 1 } }
        (TransportResult.ok { success := true })
        = { success := false,
            message := some "File validation failed for doc: File size exceeds 0.0MB limit" } := by
  have hcf : containsFiles (JVal.obj [("doc", JVal.file { name := "a.png", ftype := "image/png", size := 2 })]) = true := by
    simp [containsFiles, fieldsHaveFiles, valueHasFiles]
  have henc : toFormDataAny (JVal.obj [("doc", JVal.file { name := "a.png", ftype := "image/png", size := 2 })])
      { validateFiles := true, fileConfig := some { maxSize := some 1 } }
      = Except.error "File validation failed for doc: File size exceeds 0.0MB limit" := by
    simp [toFormDataAny, encodeFields, encodeEntry, currentFileConfig, validateFile,
      mkFormKey, sizeLimitMsg, toFixed1MB]
    decide
  refine ⟨?_, hcf, henc, ?_⟩
  · have := (executeRequest_failures_resolve (α := Unit) {} (some "server says no")
      (some "boom") JVal.null "x" (TransportResult.err (some "server says no") (some "boom"))).1
    rw [this]
    have hm := (executeRequest_failures_resolve (α := Unit) {} (some "server says no")
      (some "boom") JVal.null "x" (TransportResult.err (some "server says no") (some "boom"))).2.2.1
      "server says no" rfl (by decide)
    rw [hm]
  · exact (executeRequest_failures_resolve (α := Unit)
      { validateFiles := true, fileConfig := some { maxSize := some 1 } }
      none none
      (JVal.obj [("doc", JVal.file { name := "a.png", ftype := "image/png", size := 2 })])
      "File validation failed for doc: File size exceeds 0.0MB limit"
      (TransportResult.ok { success := true })).2.1 hcf henc

/-- C4: `deleteProduct(id)` is never optimistic: the synchronous prefix
before the gateway `DELETE` leaves `products` unchanged (so the entity is
still present while the call is pending); only a `success:true` envelope
filters the entity out, decrements the count and clears a matching
`selected`; on any failure `products` is untouched and `error` is set. -/
theorem deleteProduct_never_optimistic (id : Int) (s : ProductsState) :
    ((deleteProductPre s).products = s.products)
    ∧ (∀ r : ApiResp Unit, r.success = true →
        (deleteProduct id (GatewayOutcome.env r) s).1.products
            = s.products.filter (fun p => !(p.id == id))
        ∧ (deleteProduct id (GatewayOutcome.env r) s).1.totalProducts
            = s.totalProducts - 1
        ∧ (deleteProduct id (GatewayOutcome.env r) s).1.selectedProduct
            = (if selectedIdIs s.selectedProduct id then none else s.selectedProduct))
    ∧ (∀ r : ApiResp Unit, r.success = false →
        (deleteProduct id (GatewayOutcome.env r) s).1.products = s.products
        ∧ (deleteProduct id (GatewayOutcome.env r) s).1.error
            = some (jsOrDefault r.message "فشل في حذف المنتج"))
    ∧ ((deleteProduct id GatewayOutcome.thrown s).1.products = s.products
        ∧ (deleteProduct id GatewayOutcome.thrown s).1.error
            = some "حدث خطأ أثناء حذف المنتج") := by
  refine ⟨rfl, ?_, ?_, ?_⟩
  · intro r hr
    simp [deleteProduct, deleteProductPre, deleteProductPost, hr]
  · intro r hr
    simp [deleteProduct, deleteProductPre, deleteProductPost, hr]
  · simp [deleteProduct, deleteProductPre, deleteProductPost]

/-- C4 witness: deleting id 7 from a one-product store. -/
theorem deleteProduct_never_optimistic_witness :
    ({ success := true } : ApiResp Unit).success = true
    ∧ (deleteProduct 7 (GatewayOutcome.env { success := true })
        { products := [{ id := 7 }] }).1.products
      = ({ products := [{ id := 7 }] } : ProductsState).products.filter (fun p => !(p.id == 7)) :=
  ⟨rfl, ((deleteProduct_never_optimistic 7 { products := [{ id := 7 }] }).2.1
    { success := true } rfl).1⟩

/-- C8: a failure envelope (`success:false`) received by `getProduct`
leaves `selected` exactly as it was before the call (it is not nulled) and
sets `error` to the envelope's message (when that message is truthy; an
absent or empty message falls back to a non-empty default). -/
theorem getProduct_failure_keeps_selected (s : ProductsState) (r : ApiResp Product)
    (hfail : r.success = false) :
    (getProduct (GatewayOutcome.env r) s).selectedProduct = s.selectedProduct
    ∧ (getProduct (GatewayOutcome.env r) s).error
        = some (jsOrDefault r.message "فشل في تحميل بيانات المنتج")
    ∧ (∀ msg : String, r.message = some msg → msg ≠ "" →
        (getProduct (GatewayOutcome.env r) s).error = some msg) := by
  refine ⟨?_, ?_, ?_⟩
  · simp [getProduct, getProductPre, getProductPost, successPayload, hfail]
  · simp [getProduct, getProductPre, getProductPost, successPayload, hfail]
  · intro msg hmsg hne
    simp [getProduct, getProductPre, getProductPost, successPayload, hfail, hmsg,
      jsOrDefault, hne]

/-- C8 witness: `getProduct` against `{success:false, message:"not found"}`
keeps the previously selected product and reports `"not found"`. -/
theorem getProduct_failure_keeps_selected_witness :
    ({ success := false, message := some "not found" } : ApiResp Product).success = false
    ∧ (getProduct (GatewayOutcome.env { success := false, message := some "not found" })
        { selectedProduct := some { id := 3 } }).selectedProduct
      = some { id := 3 }
    ∧ (getProduct (GatewayOutcome.env { success := false, message := some "not found" })
        { selectedProduct := some { id := 3 } }).error = some "not found" :=
  ⟨rfl,
    (getProduct_failure_keeps_selected { selectedProduct := some { id := 3 } }
      { success := false, message := some "not found" } rfl).1,
    (getProduct_failure_keeps_selected { selectedProduct := some { id := 3 } }
      { success := false, message := some "not found" } rfl).2.2 "not found" rfl
      (by decide)⟩

/-- C1: the optimistic-create contract of `createProduct`. For a store
with `N` items and no pre-existing item carrying the synthetic temporary id
`now`: a rejected gateway call (failure envelope or thrown error) leaves
exactly the `N` pre-call items, no item with the temporary id, and a
non-empty `error`; a success envelope carrying a server entity leaves
`N + 1` items whose first item is exactly the server-returned entity (so it
bears the server id, not the temporary one, and whatever `is_optimistic`
the server entity has — the placeholder is gone). -/
theorem createProduct_optimistic_contract (now : Int) (nowIso : String)
    (d : ProductFormData) (s : ProductsState)
    (hfresh : ∀ p ∈ s.products, p.id ≠ now) :
    (∀ r : ApiResp Product, successPayload r = none →
        (createProduct now nowIso d (GatewayOutcome.env r) s).1.products = s.products
        ∧ (createProduct now nowIso d (GatewayOutcome.env r) s).1.products.length
            = s.products.length
        ∧ (∀ p ∈ (createProduct now nowIso d (GatewayOutcome.env r) s).1.products,
            p.id ≠ now)
        ∧ (∃ msg : String,
            (createProduct now nowIso d (GatewayOutcome.env r) s).1.error = some msg
            ∧ msg ≠ ""))
    ∧ ((createProduct now nowIso d GatewayOutcome.thrown s).1.products = s.products
        ∧ (∀ p ∈ (createProduct now nowIso d GatewayOutcome.thrown s).1.products,
            p.id ≠ now)
        ∧ (∃ msg : String,
            (createProduct now nowIso d GatewayOutcome.thrown s).1.error = some msg
            ∧ msg ≠ ""))
    ∧ (∀ r : ApiResp Product, ∀ p : Product, successPayload r = some p →
        (createProduct now nowIso d (GatewayOutcome.env r) s).1.products
            = p :: s.products
        ∧ (createProduct now nowIso d (GatewayOutcome.env r) s).1.products.length
            = s.products.length + 1
        ∧ (createProduct now nowIso d (GatewayOutcome.env r) s).1.products.head?
            = some p
        ∧ (createProduct now nowIso d (GatewayOutcome.env r) s).2 = some p) := by
  refine ⟨?_, ?_, ?_⟩
  · intro r hr
    refine ⟨?_, ?_, ?_, ?_⟩
    · simp [createProduct, hr]
    · simp [createProduct, hr]
    · intro p hp
      simp only [createProduct, hr] at hp
      exact hfresh p hp
    · refine ⟨jsOrDefault r.message "فشل في إنشاء المنتج", ?_, ?_⟩
      · simp [createProduct, hr]
      · exact jsOrDefault_ne_empty r.message _ (by decide)
  · refine ⟨?_, ?_, ?_⟩
    · simp [createProduct]
    · intro p hp
      simp only [createProduct] at hp
      exact hfresh p hp
    · exact ⟨"حدث خطأ أثناء إنشاء المنتج", by simp [createProduct], by decide⟩
  · intro r p hr
    refine ⟨?_, ?_, ?_, ?_⟩ <;> simp [createProduct, hr]

/-- C1 witness: the contract at a one-item store with temporary id 999. -/
theorem createProduct_optimistic_contract_witness :
    (∀ p ∈ ({ products := [{ id := 1 }] } : ProductsState).products, p.id ≠ 999)
    ∧ (createProduct 999 "t" { name_ar := "n", name_en := "e", main_category_id := 1, price := 5 }
        (GatewayOutcome.env { success := false, message := some "bad payload" })
        { products := [{ id := 1 }] }).1.products = [{ id := 1 }]
    ∧ (createProduct 999 "t" { name_ar := "n", name_en := "e", main_category_id := 1, price := 5 }
        (GatewayOutcome.env { success := true, data := some { id := 42 } })
        { products := [{ id := 1 }] }).1.products = [{ id := 42 }, { id := 1 }] := by
  have hfresh : ∀ p ∈ ({ products := [{ id := 1 }] } : ProductsState).products, p.id ≠ 999 := by
    intro p hp
    simp at hp
    subst hp
    decide
  refine ⟨hfresh, ?_, ?_⟩
  · exact ((createProduct_optimistic_contract 999 "t"
      { name_ar := "n", name_en := "e", main_category_id := 1, price := 5 }
      { products := [{ id := 1 }] } hfresh).1
      { success := false, message := some "bad payload" } (by simp [successPayload])).1
  · exact ((createProduct_optimistic_contract 999 "t"
      { name_ar := "n", name_en := "e", main_category_id := 1, price := 5 }
      { products := [{ id := 1 }] } hfresh).2.2
      { success := true, data := some { id := 42 } } { id := 42 }
      (by simp [successPayload, dataOrResponse])).1

/-- C5: with `validateFiles` enabled and a `FileUploadConfig` whose
`maxSize` is `m > 0` applying to a field, encoding a single file of exactly
`m` bytes passes the size check (the file entry is produced), while a file
of `m + 1` bytes makes the whole encode fail with an error that carries the
field name and the joined list of violated rules (here the size-violation
message); the invalid file is never silently dropped — no `ok` output is
produced at all. -/
theorem toFormData_maxSize_boundary (fname ftype : String) (m : Nat) (hm : 0 < m) :
    toFormData [("doc", JVal.file { name := fname, ftype := ftype, size := m })]
        { validateFiles := true, fileConfig := some { maxSize := some m } }
      = Except.ok [("doc", FormVal.file { name := fname, ftype := ftype, size := m })]
    ∧ toFormData [("doc", JVal.file { name := fname, ftype := ftype, size := m + 1 })]
        { validateFiles := true, fileConfig := some { maxSize := some m } }
      = Except.error ("File validation failed for doc: " ++ sizeLimitMsg m)
    ∧ (∀ out : List (String × FormVal),
        toFormData [("doc", JVal.file { name := fname, ftype := ftype, size := m + 1 })]
            { validateFiles := true, fileConfig := some { maxSize := some m } }
          ≠ Except.ok out) := by
  have hv_ok : validateFile { name := fname, ftype := ftype, size := m }
      (some { maxSize := some m }) = ([] : List String) := by
    simp [validateFile]
  have hv_big : validateFile { name := fname, ftype := ftype, size := m + 1 }
      (some { maxSize := some m }) = [sizeLimitMsg m] := by
    simp [validateFile]
    omega
  have henc : toFormData [("doc", JVal.file { name := fname, ftype := ftype, size := m + 1 })]
      { validateFiles := true, fileConfig := some { maxSize := some m } }
      = Except.error ("File validation failed for doc: " ++ sizeLimitMsg m) := by
    simp [toFormData, encodeFields, encodeEntry, currentFileConfig, hv_big,
      mkFormKey, String.intercalate]
    rfl
  refine ⟨?_, henc, ?_⟩
  · simp [toFormData, encodeFields, encodeEntry, currentFileConfig, hv_ok, mkFormKey]
  · intro out hout
    rw [henc] at hout
    exact Except.noConfusion hout

/-- C5 witness: the boundary at `maxSize` 1048576 (1.0MB). -/
theorem toFormData_maxSize_boundary_witness :
    0 < 1048576
    ∧ toFormData [("doc", JVal.file { name := "a.png", ftype := "image/png", size := 1048576 })]
        { validateFiles := true, fileConfig := some { maxSize := some 1048576 } }
      = Except.ok [("doc", FormVal.file { name := "a.png", ftype := "image/png", size := 1048576 })]
    ∧ toFormData [("doc", JVal.file { name := "a.png", ftype := "image/png", size := 1048577 })]
        { validateFiles := true, fileConfig := some { maxSize := some 1048576 } }
      = Except.error "File validation failed for doc: File size exceeds 1.0MB limit" := by
  have h := toFormData_maxSize_boundary "a.png" "image/png" 1048576 (by norm_num)
  exact ⟨by norm_num, h.1, h.2.1.trans (congrArg Except.error (by decide))⟩

/-- C6: the bracket key-construction rule. A value reachable by the nested
path `a.b[2].c` is emitted under the key `a[b][2][c]` when
`arrayBrackets` is true and under `a.b.2.c` when it is false (sibling array
elements get the same treatment), and a root-level key is emitted unchanged
in both modes. -/
theorem toFormData_bracket_rule (v0 v1 v : String) (k w : String) :
    toFormData [("a", JVal.obj [("b", JVal.arr
        [JVal.str v0, JVal.str v1, JVal.obj [("c", JVal.str v)]])])] {}
      = Except.ok [("a[b][0]", FormVal.str v0), ("a[b][1]", FormVal.str v1),
          ("a[b][2][c]", FormVal.str v)]
    ∧ toFormData [("a", JVal.obj [("b", JVal.arr
        [JVal.str v0, JVal.str v1, JVal.obj [("c", JVal.str v)]])])]
        { arrayBrackets := false }
      = Except.ok [("a.b.0", FormVal.str v0), ("a.b.1", FormVal.str v1),
          ("a.b.2.c", FormVal.str v)]
    ∧ toFormData [(k, JVal.str w)] {} = Except.ok [(k, FormVal.str w)]
    ∧ toFormData [(k, JVal.str w)] { arrayBrackets := false }
      = Except.ok [(k, FormVal.str w)] := by
  refine ⟨?_, ?_, ?_, ?_⟩
  · simp [toFormData, encodeFields, encodeEntry, encodeArrayItems, mkFormKey,
      jsIncludes, currentFileConfig]
    decide
  · simp [toFormData, encodeFields, encodeEntry, encodeArrayItems, mkFormKey,
      jsIncludes, currentFileConfig]
    decide
  · simp [toFormData, encodeFields, encodeEntry, mkFormKey]
  · simp [toFormData, encodeFields, encodeEntry, mkFormKey]

/-- C9 counterexample: `uploadProductFiles` and `deleteProductMedia` do
fail without setting `store.error`. Against a failure envelope that carries
a message, both leave the state (including `error = none`) completely
untouched and only signal failure through their return value — refuting
"every failing store action sets store.error to a string". -/
theorem upload_delete_media_fail_silently :
    (uploadProductFiles 5
        (GatewayOutcome.env { success := false, message := some "upload failed" })
        {}).1.error = none
    ∧ (uploadProductFiles 5
        (GatewayOutcome.env { success := false, message := some "upload failed" })
        {}).2 = none
    ∧ (deleteProductMedia 5 9
        (GatewayOutcome.env { success := false, message := some "delete failed" })
        {}).1.error = none
    ∧ (deleteProductMedia 5 9
        (GatewayOutcome.env { success := false, message := some "delete failed" })
        {}).2 = false := by
  refine ⟨rfl, rfl, rfl, rfl⟩

/-- C9 amended: the five CRUD actions (`fetchProducts`, `getProduct`,
`createProduct`, `updateProduct`, `deleteProduct`) set `store.error` on
every failure (failure envelope or thrown error), while
`uploadProductFiles` and `deleteProductMedia` never re-throw but signal
failure only through their return value (`none` / `false`), leaving the
state — including `error` — untouched. No action re-throws: each is a
total function of its outcome. -/
theorem store_error_policy (s : ProductsState) (now : Int) (nowIso : String)
    (id mediaId : Int) (d : ProductFormData) :
    (∀ r : ApiResp (List Product), successPayload r = none →
        (fetchProducts (GatewayOutcome.env r) s).error
          = some (jsOrDefault r.message "فشل في تحميل المنتجات"))
    ∧ (fetchProducts GatewayOutcome.thrown s).error
        = some "حدث خطأ أثناء تحميل المنتجات"
    ∧ (∀ r : ApiResp Product, successPayload r = none →
        (getProduct (GatewayOutcome.env r) s).error
          = some (jsOrDefault r.message "فشل في تحميل بيانات المنتج"))
    ∧ (getProduct GatewayOutcome.thrown s).error
        = some "حدث خطأ أثناء تحميل المنتج"
    ∧ (∀ r : ApiResp Product, successPayload r = none →
        (createProduct now nowIso d (GatewayOutcome.env r) s).1.error
          = some (jsOrDefault r.message "فشل في إنشاء المنتج"))
    ∧ (createProduct now nowIso d GatewayOutcome.thrown s).1.error
        = some "حدث خطأ أثناء إنشاء المنتج"
    ∧ (∀ r : ApiResp Product, successPayload r = none →
        (updateProduct nowIso id d (GatewayOutcome.env r) s).1.error.isSome = true)
    ∧ (updateProduct nowIso id d GatewayOutcome.thrown s).1.error.isSome = true
    ∧ (∀ r : ApiResp Unit, r.success = false →
        (deleteProduct id (GatewayOutcome.env r) s).1.error
          = some (jsOrDefault r.message "فشل في حذف المنتج"))
    ∧ (deleteProduct id GatewayOutcome.thrown s).1.error
        = some "حدث خطأ أثناء حذف المنتج"
    ∧ (∀ r : ApiResp (List ProductMedia), successPayload r = none →
        uploadProductFiles id (GatewayOutcome.env r) s = (s, none))
    ∧ uploadProductFiles id GatewayOutcome.thrown s = (s, none)
    ∧ (∀ r : ApiResp Unit, r.success = false →
        deleteProductMedia id mediaId (GatewayOutcome.env r) s = (s, false))
    ∧ deleteProductMedia id mediaId GatewayOutcome.thrown s = (s, false) := by
  refine ⟨?_, ?_, ?_, ?_, ?_, ?_, ?_, ?_, ?_, ?_, ?_, ?_, ?_, ?_⟩
  · intro r hr
    simp [fetchProducts, fetchProductsPre, fetchProductsPost, hr]
  · simp [fetchProducts, fetchProductsPre, fetchProductsPost]
  · intro r hr
    simp [getProduct, getProductPre, getProductPost, hr]
  · simp [getProduct, getProductPre, getProductPost]
  · intro r hr
    simp [createProduct, hr]
  · simp [createProduct]
  · intro r hr
    cases hf : findWithIdx s.products id with
    | none => simp [updateProduct, hf]
    | some found => simp [updateProduct, hf, hr]
  · cases hf : findWithIdx s.products id with
    | none => simp [updateProduct, hf]
    | some found => simp [updateProduct, hf]
  · intro r hr
    simp [deleteProduct, deleteProductPre, deleteProductPost, hr]
  · simp [deleteProduct, deleteProductPre, deleteProductPost]
  · intro r hr
    simp [uploadProductFiles, hr]
  · simp [uploadProductFiles]
  · intro r hr
    simp [deleteProductMedia, hr]
  · simp [deleteProductMedia]

/-- C9 amended witness: the policy at the empty store against concrete
failure envelopes. -/
theorem store_error_policy_witness :
    successPayload ({ success := false, message := some "nope" } : ApiResp (List Product)) = none
    ∧ (fetchProducts (GatewayOutcome.env { success := false, message := some "nope" }) {}).error
        = some "nope"
    ∧ uploadProductFiles 5 GatewayOutcome.thrown {} = ({}, none) := by
  have hsp : successPayload ({ success := false, message := some "nope" } : ApiResp (List Product)) = none := by
    simp [successPayload]
  refine ⟨hsp, ?_, (store_error_policy {} 0 "t" 5 9
    { name_ar := "n", name_en := "e", main_category_id := 1, price := 5 }).2.2.2.2.2.2.2.2.2.2.2.1⟩
  have := (store_error_policy {} 0 "t" 5 9
    { name_ar := "n", name_en := "e", main_category_id := 1, price := 5 }).1
    { success := false, message := some "nope" } hsp
  rw [this]
  rfl

/-- C10 counterexample: an envelope with `success:true` and a *present but
empty* payload array is truthy in JS, so `fetchProducts` takes the success
branch, replacing `items` with the empty list and leaving `error` unset —
refuting the claim for the "(or empty)" reading. -/
theorem empty_payload_takes_success_branch :
    (fetchProducts (GatewayOutcome.env { success := true, data := some [] })
        { products := [{ id := 1 }] }).products = []
    ∧ (fetchProducts (GatewayOutcome.env { success := true, data := some [] })
        { products := [{ id := 1 }] }).error = none
    ∧ (fetchProducts (GatewayOutcome.env { success := true, data := some [] })
        { products := [{ id := 1 }] }).products
      ≠ ({ products := [{ id := 1 }] } : ProductsState).products := by
  refine ⟨rfl, rfl, by decide⟩

/-- C10 amended: an envelope with `success:true` but both `data` and
`response` absent is processed through the failure branch by
`fetchProducts`, `getProduct`, `createProduct` and `updateProduct`: `error`
is set (to the envelope's message or a fallback), the optimistic mutation
(create placeholder, merged update) is rolled back to the pre-call
snapshot, and `items`/`selected` keep their pre-call values. (A present but
empty array or object payload is truthy and takes the success branch
instead.) -/
theorem noPayload_success_failure_branch (s : ProductsState) (now : Int)
    (nowIso : String) (id : Int) (d : ProductFormData) :
    (∀ r : ApiResp (List Product), r.success = true → r.data = none → r.response = none →
        (fetchProducts (GatewayOutcome.env r) s).products = s.products
        ∧ (fetchProducts (GatewayOutcome.env r) s).error
            = some (jsOrDefault r.message "فشل في تحميل المنتجات"))
    ∧ (∀ r : ApiResp Product, r.success = true → r.data = none → r.response = none →
        (getProduct (GatewayOutcome.env r) s).selectedProduct = s.selectedProduct
        ∧ (getProduct (GatewayOutcome.env r) s).error
            = some (jsOrDefault r.message "فشل في تحميل بيانات المنتج"))
    ∧ (∀ r : ApiResp Product, r.success = true → r.data = none → r.response = none →
        (createProduct now nowIso d (GatewayOutcome.env r) s).1.products = s.products
        ∧ (createProduct now nowIso d (GatewayOutcome.env r) s).1.totalProducts
            = s.totalProducts
        ∧ (createProduct now nowIso d (GatewayOutcome.env r) s).1.error
            = some (jsOrDefault r.message "فشل في إنشاء المنتج")
        ∧ (createProduct now nowIso d (GatewayOutcome.env r) s).2 = none)
    ∧ (∀ r : ApiResp Product, r.success = true → r.data = none → r.response = none →
        (updateProduct nowIso id d (GatewayOutcome.env r) s).1.products = s.products
        ∧ (updateProduct nowIso id d (GatewayOutcome.env r) s).1.error.isSome = true
        ∧ (updateProduct nowIso id d (GatewayOutcome.env r) s).2 = none) := by
  have hsp : ∀ {α : Type} (r : ApiResp α), r.data = none → r.response = none →
      successPayload r = none := by
    intro α r hd hr
    simp [successPayload, dataOrResponse, hd, hr]
  refine ⟨?_, ?_, ?_, ?_⟩
  · intro r hs hd hr
    constructor <;>
      simp [fetchProducts, fetchProductsPre, fetchProductsPost, hsp r hd hr]
  · intro r hs hd hr
    constructor <;>
      simp [getProduct, getProductPre, getProductPost, hsp r hd hr]
  · intro r hs hd hr
    refine ⟨?_, ?_, ?_, ?_⟩ <;> simp [createProduct, hsp r hd hr]
  · intro r hs hd hr
    cases hf : findWithIdx s.products id with
    | none => refine ⟨?_, ?_, ?_⟩ <;> simp [updateProduct, hf]
    | some found => refine ⟨?_, ?_, ?_⟩ <;> simp [updateProduct, hf, hsp r hd hr]

/-- C10 amended witness: a `success:true` envelope with no payload fields
against a one-item store. -/
theorem noPayload_success_failure_branch_witness :
    ({ success := true, message := some "m" } : ApiResp (List Product)).success = true
    ∧ ({ success := true, message := some "m" } : ApiResp (List Product)).data = none
    ∧ (fetchProducts (GatewayOutcome.env { success := true, message := some "m" })
        { products := [{ id := 1 }] }).products = [{ id := 1 }] := by
  refine ⟨rfl, rfl, ?_⟩
  have := ((noPayload_success_failure_branch { products := [{ id := 1 }] } 0 "t" 5
    { name_ar := "n", name_en := "e", main_category_id := 1, price := 5 }).1
    { success := true, message := some "m" } rfl rfl rfl).1
  rw [this]

/-- The string the encoder produces for a scalar leaf at object level:
strings verbatim, numbers in decimal, booleans as `"1"`/`"0"`, dates as
their ISO string. `none` for non-scalar values. -/
def scalarEncode : JVal → Option String
  | .str s => some s
  | .num n => some (toString n)
  | .bool b => some (if b then "1" else "0")
  | .date iso => some iso
  | _ => none

theorem lookupJ_append_none {acc : List (String × JVal)} {k' : String}
    (h : lookupJ acc k' = none) {k : String} (hne : (k == k') = false) (v : JVal) :
    lookupJ (acc ++ [(k, v)]) k' = none := by
  induction acc with
  | nil => simp [lookupJ, List.find?, hne]
  | cons x rest ih =>
    cases hx : (x.1 == k') with
    | true => simp [lookupJ, List.find?, hx] at h
    | false =>
      simp only [lookupJ, List.find?, hx] at h
      simp only [lookupJ, List.cons_append, List.find?, hx]
      exact ih h

theorem foldl_addEntry_nodup (entries : List (String × FormVal)) :
    ∀ acc : List (String × JVal),
    (∀ k ∈ entries.map Prod.fst, lookupJ acc k = none) →
    (entries.map Prod.fst).Nodup →
    entries.foldl (fun a e => addEntry a e.1 e.2) acc
      = acc ++ entries.map (fun kv => (kv.1, jvalOfFormVal kv.2)) := by
  induction entries with
  | nil => intro acc _ _; simp
  | cons e rest ih =>
    intro acc hdisj hnodup
    obtain ⟨k, v⟩ := e
    have hk : lookupJ acc k = none := hdisj k (by simp)
    have hstep : addEntry acc k v = acc ++ [(k, jvalOfFormVal v)] := by
      simp [addEntry, hk]
    have hnotin : k ∉ rest.map Prod.fst := by
      simp only [List.map_cons, List.nodup_cons] at hnodup
      exact hnodup.1
    have hdisj' : ∀ k' ∈ rest.map Prod.fst, lookupJ (acc ++ [(k, jvalOfFormVal v)]) k' = none := by
      intro k' hk'
      have hne : (k == k') = false := by
        simp only [beq_eq_false_iff_ne, ne_eq]
        intro hkk
        exact hnotin (hkk ▸ hk')
      exact lookupJ_append_none (hdisj k' (by simp [hk'])) hne _
    have hnodup' : (rest.map Prod.fst).Nodup := by
      simp only [List.map_cons, List.nodup_cons] at hnodup
      exact hnodup.2
    simp only [List.foldl_cons, hstep]
    rw [ih (acc ++ [(k, jvalOfFormVal v)]) hdisj' hnodup']
    simp

theorem encodeFields_scalars (fields : List (String × JVal))
    (h : ∀ kv ∈ fields, (scalarEncode kv.2).isSome = true) :
    encodeFields {} none fields
      = Except.ok (fields.map (fun kv => (kv.1, FormVal.str ((scalarEncode kv.2).getD "")))) := by
  induction fields with
  | nil => simp [encodeFields]
  | cons kv rest ih =>
    obtain ⟨k, v⟩ := kv
    have hv := h (k, v) (by simp)
    have hrest : ∀ kv ∈ rest, (scalarEncode kv.2).isSome = true :=
      fun kv hkv => h kv (by simp [hkv])
    have hent : encodeEntry {} none k v
        = Except.ok [(k, FormVal.str ((scalarEncode v).getD ""))] := by
      cases v with
      | str s => simp [encodeEntry, mkFormKey, scalarEncode]
      | num n => simp [encodeEntry, mkFormKey, scalarEncode]
      | bool b => simp [encodeEntry, mkFormKey, scalarEncode]
      | date iso => simp [encodeEntry, mkFormKey, scalarEncode]
      | null => exact absurd hv (by simp [scalarEncode])
      | file f => exact absurd hv (by simp [scalarEncode])
      | files fs => exact absurd hv (by simp [scalarEncode])
      | arr xs => exact absurd hv (by simp [scalarEncode])
      | obj fs => exact absurd hv (by simp [scalarEncode])
    simp [encodeFields, hent, ih hrest]

/-- C7 counterexample: the round-trip `decode(encode(obj)) == obj` fails
already for the one-level nested mapping `obj = \x7b a: \x7b b: "x" \x7d \x7d`:
the encoder flattens to the key `a[b]` and the decoder does not un-flatten,
yielding `\x7b "a[b]": "x" \x7d ≠ obj`. -/
theorem roundtrip_fails_on_nesting :
    toFormData [("a", JVal.obj [("b", JVal.str "x")])] {}
      = Except.ok [("a[b]", FormVal.str "x")]
    ∧ formDataToObject [("a[b]", FormVal.str "x")] = [("a[b]", JVal.str "x")]
    ∧ [("a[b]", JVal.str "x")] ≠ [("a", JVal.obj [("b", JVal.str "x")])] := by
  refine ⟨?_, ?_, ?_⟩
  · simp [toFormData, encodeFields, encodeEntry, mkFormKey]
  · rfl
  · simp

/-- C7 amended: for a flat object whose values are all scalars (strings,
numbers, booleans, dates; no nesting, no sequences, no files, no nulls) and
whose keys are distinct, decoding the encoder's output yields the original
object with every value replaced by its encoded string — booleans as
`"1"`/`"0"`, numbers as decimal strings, dates as ISO strings. The
round-trip as originally claimed fails for nested mappings (the decoder
does not un-flatten bracket keys) and for non-string scalars (they come
back as strings). -/
theorem roundtrip_flat_scalars (fields : List (String × JVal))
    (hscalar : ∀ kv ∈ fields, (scalarEncode kv.2).isSome = true)
    (hnodup : (fields.map Prod.fst).Nodup) :
    toFormData fields {}
      = Except.ok (fields.map (fun kv => (kv.1, FormVal.str ((scalarEncode kv.2).getD ""))))
    ∧ formDataToObject
        (fields.map (fun kv => (kv.1, FormVal.str ((scalarEncode kv.2).getD ""))))
      = fields.map (fun kv => (kv.1, JVal.str ((scalarEncode kv.2).getD ""))) := by
  constructor
  · exact encodeFields_scalars fields hscalar
  · have hkeys : ((fields.map (fun kv => (kv.1, FormVal.str ((scalarEncode kv.2).getD "")))).map
        Prod.fst) = fields.map Prod.fst := by
      simp
    have hdisj : ∀ k ∈ (fields.map (fun kv => (kv.1, FormVal.str ((scalarEncode kv.2).getD "")))).map
        Prod.fst, lookupJ [] k = none := by
      intro k _
      rfl
    have := foldl_addEntry_nodup
      (fields.map (fun kv => (kv.1, FormVal.str ((scalarEncode kv.2).getD "")))) []
      hdisj (by rw [hkeys]; exact hnodup)
    simp only [formDataToObject] at *
    rw [this]
    simp [jvalOfFormVal]

/-- C7 amended witness: a flat object with a number, a boolean, a string
and a date round-trips to its stringified form. -/
theorem roundtrip_flat_scalars_witness :
    (∀ kv ∈ [("n", JVal.num 3), ("b", JVal.bool true), ("s", JVal.str "x"),
        ("d", JVal.date "2020-01-01T00:00:00.000Z")], (scalarEncode kv.2).isSome = true)
    ∧ toFormData [("n", JVal.num 3), ("b", JVal.bool true), ("s", JVal.str "x"),
        ("d", JVal.date "2020-01-01T00:00:00.000Z")] {}
      = Except.ok [("n", FormVal.str "3"), ("b", FormVal.str "1"), ("s", FormVal.str "x"),
          ("d", FormVal.str "2020-01-01T00:00:00.000Z")]
    ∧ formDataToObject [("n", FormVal.str "3"), ("b", FormVal.str "1"), ("s", FormVal.str "x"),
        ("d", FormVal.str "2020-01-01T00:00:00.000Z")]
      = [("n", JVal.str "3"), ("b", JVal.str "1"), ("s", JVal.str "x"),
          ("d", JVal.str "2020-01-01T00:00:00.000Z")] := by
  have hscalar : ∀ kv ∈ [("n", JVal.num 3), ("b", JVal.bool true), ("s", JVal.str "x"),
      ("d", JVal.date "2020-01-01T00:00:00.000Z")], (scalarEncode kv.2).isSome = true := by
    intro kv hkv
    simp at hkv
    rcases hkv with h | h | h | h <;> subst h <;> rfl
  have h := roundtrip_flat_scalars
    [("n", JVal.num 3), ("b", JVal.bool true), ("s", JVal.str "x"),
      ("d", JVal.date "2020-01-01T00:00:00.000Z")] hscalar (by decide)
  exact ⟨hscalar, h.1, h.2⟩

end Lad
